import Mathlib

/-!
Shallow embedding of the gumo-logging library (`src/gumo/logging/__init__.py`)
and proofs about its behaviour.

Modelling conventions:
  * Python strings are Lean `String` (in this toolchain a structure holding a
    `List Char`); character-level work is done on `String.data`.
  * Python `None`-able values are `Option`; a raised exception is `Except.error`.
  * Ambient runtime inputs (current time, active exception, live call stack,
    working directory, environment variables, the process-wide registry kept by
    the `logging` module) are explicit parameters or explicit state.
-/

set_option autoImplicit false

namespace Gumo

/-- Python `str(x)` applied to an `Optional[str]` value as it is interpolated
by an f-string: `None` renders as the four-character text `None`. -/
def pyStrOfOptStr : Option String → String
  | none => "None"
  | some s => s

/-- Python `s.find(c) >= 0` for a one-character needle `c`: a membership test
on the characters of `s`. -/
def pyHasChar (sep : Char) : List Char → Bool
  | [] => false
  | c :: rest => c == sep || pyHasChar sep rest

/-- Python `s.split(sep)` for a one-character separator: split at every
occurrence of `sep`, keeping empty pieces.  The result is never `[]`. -/
def pySplitChar (sep : Char) : List Char → List (List Char)
  | [] => [[]]
  | c :: rest =>
    if c = sep then [] :: pySplitChar sep rest
    else
      match pySplitChar sep rest with
      | [] => [[c]]
      | g :: gs => (c :: g) :: gs

/-- Does `pat` occur as a contiguous substring of the second argument?
Boolean so that concrete instances can be settled by `decide`. -/
def occursB (pat : List Char) : List Char → Bool
  | [] => pat.isEmpty
  | c :: rest => pat.isPrefixOf (c :: rest) || occursB pat rest

/-- Worker for the Python replace-with-empty-string operation with a non-empty
`pat` (every use in the source passes the working directory followed by a
slash).  The counter remembers how many
characters of a just-matched occurrence remain to be skipped, which keeps the
recursion structural. -/
def pyRemoveGo (pat : List Char) : List Char → Nat → List Char
  | [], _ => []
  | _ :: rest, Nat.succ k => pyRemoveGo pat rest k
  | c :: rest, 0 =>
    if pat.isPrefixOf (c :: rest) then pyRemoveGo pat rest (pat.length - 1)
    else c :: pyRemoveGo pat rest 0

/-- Python replace-with-empty-string: remove every (left-to-right, non-overlapping)
occurrence of `pat` from `s`, resuming the scan after each removed occurrence. -/
def pyRemoveAll (pat s : String) : String :=
  ⟨pyRemoveGo pat.data s.data 0⟩

/-- A Python exception value that the embedded code can raise. -/
inductive PyError
  | valueError
  deriving DecidableEq

/-- `LoggerContext` from the source: a frozen dataclass with two `None`-able
string fields. -/
structure LoggerContext where
  trace : Option String := none
  span_id : Option String := none
  deriving DecidableEq

/-- Numeric severity constants, as inherited from the `logging` module. -/
def DEBUG : Nat := 10

def INFO : Nat := 20

def WARNING : Nat := 30

def ERROR : Nat := 40

def CRITICAL : Nat := 50

def FATAL : Nat := 50

/-- `logging.getLevelName` restricted to the numeric levels: the standard
severity-name table, with the `Level N` fallback for unregistered values. -/
def getLevelName (level : Nat) : String :=
  if level = 50 then "CRITICAL"
  else if level = 40 then "ERROR"
  else if level = 30 then "WARNING"
  else if level = 20 then "INFO"
  else if level = 10 then "DEBUG"
  else if level = 0 then "NOTSET"
  else "Level " ++ toString level

/-- The `msg` argument of a log call.  `exc r` is an exception object whose
`repr(err)` is `r`; `str s` is any non-exception value whose `str(msg)` is `s`. -/
inductive PyMsg
  | exc (reprText : String)
  | str (text : String)
  deriving DecidableEq

/-- Models the Python standard library call `traceback.format_exc()`: the
formatted traceback of the exception currently being handled in the calling
context, or — when no exception is active — the placeholder text that
`format_exception(None, None, None)` produces, namely `NoneType: None` plus a
newline. -/
def format_exc : Option String → String
  | some tb => tb
  | none => "NoneType: None\n"

/-- `GumoLogger._build_message_text` (source lines 51-59): for an exception
object, the newline-join of repr(err) and traceback.format_exc(); otherwise
str(msg). -/
def build_message_text (activeExc : Option String) : PyMsg → String
  | PyMsg.exc r => r ++ "\n" ++ format_exc activeExc
  | PyMsg.str s => s

/-- A value stored in the payload dict: either a string or the nested
source-location dict `{file, line, function}` built by `_find_caller`. -/
inductive PayloadVal
  | str (s : String)
  | srcLoc (file : String) (line : Nat) (function : String)
  deriving DecidableEq

/-- A Python object as far as `_find_caller` inspects it: whether
`isinstance(obj, GumoLogger)` holds. -/
structure PyObj where
  isGumoLogger : Bool
  deriving DecidableEq

/-- One entry of `inspect.stack()`: the local binding named `self` of the
frame (if any) and the file/line/function data. -/
structure FrameInfo where
  selfLocal : Option PyObj
  filename : String
  lineno : Nat
  function : String
  deriving DecidableEq

/-- The frame classification at source line 151-152:
`stack_self is not None and isinstance(stack_self, self.__class__)`. -/
def frameInLogger (f : FrameInfo) : Bool :=
  match f.selfLocal with
  | none => false
  | some o => o.isGumoLogger

/-- The loop of `GumoLogger._find_caller` (source lines 149-159).  The flag is
`callee_is_custom_logger`: set when a facade frame is seen, never reset; the
first non-facade frame observed while it is set is returned. -/
def find_caller_loop : Bool → List FrameInfo → Option FrameInfo
  | _, [] => none
  | flag, f :: rest =>
    if frameInLogger f then find_caller_loop true rest
    else if flag then some f
    else find_caller_loop flag rest

/-- `GumoLogger._find_caller` (source lines 145-169) applied to the frames of
`inspect.stack()`, innermost first.  The `{file, line, function}` dict built at
lines 164-169 is represented by the returned `FrameInfo` itself; the payload
builder turns it into a `PayloadVal.srcLoc`. -/
def find_caller (stack : List FrameInfo) : Option FrameInfo :=
  find_caller_loop false stack

/-- The wording of the spec for caller resolution (§4.2): drop any leading frames
that are not inside the facade, then drop the contiguous run of facade frames,
and report the first frame after that run, if any. -/
def spec_find_caller (stack : List FrameInfo) : Option FrameInfo :=
  ((stack.dropWhile (fun f => !frameInLogger f)).dropWhile (fun f => frameInLogger f)).head?

def traceKey : String := "logging.googleapis.com/trace"

def spanKey : String := "logging.googleapis.com/spanId"

def srcKey : String := "logging.googleapis.com/sourceLocation"

/-- `GumoLogger._build_log_payload` (source lines 61-77).  `utcIso` stands for
`datetime.datetime.utcnow().isoformat()`; the dict is modelled as an
association list in insertion order. -/
def build_log_payload (utcIso : String) (activeExc : Option String)
    (ctx : LoggerContext) (stack : List FrameInfo) (level : Nat) (msg : PyMsg) :
    List (String × PayloadVal) :=
  [("timestamp", PayloadVal.str (utcIso ++ "Z")),
   ("Message", PayloadVal.str (build_message_text activeExc msg)),
   ("severity", PayloadVal.str (getLevelName level))]
  ++ (match ctx.trace with
      | some t => [(traceKey, PayloadVal.str t)]
      | none => [])
  ++ (match ctx.span_id with
      | some s => [(spanKey, PayloadVal.str s)]
      | none => [])
  ++ (match find_caller stack with
      | some fr => [(srcKey, PayloadVal.srcLoc fr.filename fr.lineno fr.function)]
      | none => [])

/-- JSON string escaping as `json.dumps` (with `ensure_ascii=False`) applies it
to the characters that actually occur in this development; other characters are
passed through unchanged. -/
def jsonEscapeChar (c : Char) : String :=
  if c = '"' then "\\\""
  else if c = '\\' then "\\\\"
  else if c = '\n' then "\\n"
  else if c = '\t' then "\\t"
  else if c = '\r' then "\\r"
  else String.singleton c

def jsonStr (s : String) : String :=
  "\"" ++ String.join (s.data.map jsonEscapeChar) ++ "\""

def jsonVal : PayloadVal → String
  | PayloadVal.str s => jsonStr s
  | PayloadVal.srcLoc f l fn =>
    "\x7b" ++ jsonStr "file" ++ ": " ++ jsonStr f ++ ", " ++ jsonStr "line" ++ ": "
      ++ toString l ++ ", " ++ jsonStr "function" ++ ": " ++ jsonStr fn ++ "\x7d"

/-- `GumoLogger._json_formatter` (source lines 79-80): `json.dumps` of the
payload dict on one line, in insertion order, with `, ` and `: ` separators. -/
def json_formatter (d : List (String × PayloadVal)) : String :=
  "\x7b" ++ String.intercalate ", " (d.map (fun kv => jsonStr kv.1 ++ ": " ++ jsonVal kv.2)) ++ "\x7d"

/-- Python `str()` of a value fetched by `dict.get`, as used by the `format`
call of the text formatter: an absent key formats as `None`; the nested
source-location dict renders in Python dict syntax (quotes written as
`\x27`, braces as `\x7b`/`\x7d`; this branch is unreachable for the keys the
formatter reads). -/
def pyFormatField : Option PayloadVal → String
  | none => "None"
  | some (PayloadVal.str s) => s
  | some (PayloadVal.srcLoc f l fn) =>
    "\x7b\x27file\x27: \x27" ++ f ++ "\x27, \x27line\x27: " ++ toString l
      ++ ", \x27function\x27: \x27" ++ fn ++ "\x27\x7d"

/-- `GumoLogger._log_text_formatter` (source lines 82-94).  `nowLocal` stands
for `str(datetime.datetime.now())` captured at render time; `cwd` is
`os.getcwd()`, and the stored `_cwd` is `cwd` followed by a slash (source line
45).  The fallbacks model the chained dict.get calls of lines 83-84: an absent
source-location entry yields a dash for `line` and the unknown-marker text for
`file`. -/
def log_text_formatter (cwd nowLocal : String) (d : List (String × PayloadVal)) : String :=
  let src := List.lookup srcKey d
  let line : String :=
    match src with
    | some (PayloadVal.srcLoc _ l _) => toString l
    | _ => "-"
  let file0 : String :=
    match src with
    | some (PayloadVal.srcLoc f _ _) => f
    | _ => "<unknown>"
  let file := pyRemoveAll (cwd ++ "/") file0
  "[" ++ nowLocal ++ "]" ++ pyFormatField (List.lookup "severity" d) ++ ":" ++ file
    ++ ":" ++ line ++ ": " ++ pyFormatField (List.lookup "Message" d)

/-- The wording of the spec for the relative file path of text mode (§4.3): the
current working directory plus trailing separator stripped as a prefix, the
remainder of the path unchanged. -/
def spec_strip_cwd (cwd file : String) : String :=
  if (cwd ++ "/").data.isPrefixOf file.data then ⟨file.data.drop (cwd ++ "/").data.length⟩
  else file

/-- `GumoLogger._fetch_logger_context` (source lines 102-109).  `hook = none`
models an unconfigured `fetch_logger_context_func`; `hook = some r` models a
configured hook that returned `r`. -/
def fetch_logger_context (ctx : LoggerContext) (hook : Option (Option LoggerContext)) :
    LoggerContext :=
  match hook with
  | none => ctx
  | some none => ctx
  | some (some c) => c

/-- Which of the two sinks held by a `GumoLogger` receives the line. -/
inductive SinkSel
  | defaultLogger
  | errorLogger
  deriving DecidableEq

/-- `GumoLogger._log` (source lines 112-119): refresh the context via the
hook, build the payload, format it (JSON when structured mode is on, text
otherwise), and write to the error sink iff `level >= ERROR`. -/
def gumo_log (utcIso : String) (activeExc : Option String) (nowLocal cwd : String)
    (stack : List FrameInfo) (structured : Bool) (hook : Option (Option LoggerContext))
    (ctx0 : LoggerContext) (level : Nat) (msg : PyMsg) : SinkSel × String :=
  let ctx := fetch_logger_context ctx0 hook
  let payload := build_log_payload utcIso activeExc ctx stack level msg
  let line := if structured then json_formatter payload else log_text_formatter cwd nowLocal payload
  if ERROR ≤ level then (SinkSel.errorLogger, line) else (SinkSel.defaultLogger, line)

/-- The stream a `logging.StreamHandler` is bound to. -/
inductive StreamT
  | stdout
  | stderr
  deriving DecidableEq

/-- A `logging.StreamHandler` as configured by `_build_logger`: its stream,
its level, and its format string. -/
structure Handler where
  stream : StreamT
  level : Nat
  format : String
  deriving DecidableEq

/-- A `logging.Logger` object, reduced to the state `_build_logger` touches. -/
structure PyLogger where
  propagate : Bool
  level : Nat
  handlers : List Handler
  deriving DecidableEq

/-- The process-wide registry of named loggers kept by the `logging` module,
as an association list from name to logger state. -/
abbrev Registry := List (String × PyLogger)

/-- `logging.getLogger(name)`: return the logger registered under `name`,
creating and registering a fresh one (propagate on, level `NOTSET = 0`, no
handlers) when absent. -/
def registryGetLogger (name : String) (reg : Registry) : PyLogger × Registry :=
  match reg.lookup name with
  | some l => (l, reg)
  | none =>
    let l : PyLogger := ⟨true, 0, []⟩
    (l, (name, l) :: reg)

/-- Replace the entry registered under `name`. -/
def registrySet (name : String) (l : PyLogger) : Registry → Registry
  | [] => [(name, l)]
  | (n, x) :: rest =>
    if n = name then (n, l) :: rest else (n, x) :: registrySet name l rest

/-- `Logger.hasHandlers()` at the call site in `_build_logger`: the
`propagate` flag of the logger has just been set to `False`, so the ancestor walk of the
library implementation stops at the logger itself and the call reduces to
checking its own handler list. -/
def hasHandlers (l : PyLogger) : Bool :=
  !l.handlers.isEmpty

/-- `LoggerManager._build_logger` (source lines 201-214): build a stream
handler with the message-only format, fetch (or create) the named logger,
disable propagation, set the level, and attach the handler only when the
logger has none.  Returns the logger (by registry name), the handler, and the
updated registry. -/
def build_logger (name : String) (stream : StreamT) (level : Nat) (reg : Registry) :
    String × Handler × Registry :=
  let handler : Handler := ⟨stream, level, "%(message)s"⟩
  let (lg, reg1) := registryGetLogger name reg
  let lg1 : PyLogger := { lg with propagate := false, level := level }
  let lg2 : PyLogger :=
    if hasHandlers lg1 then lg1 else { lg1 with handlers := lg1.handlers ++ [handler] }
  (name, handler, registrySet name lg2 reg1)

/-- The fields of a constructed `LoggerManager` that the claims mention. -/
structure ManagerState where
  defaultLoggerName : String
  errorLoggerName : String
  defaultHandler : Handler
  errorHandler : Handler
  project_id : String
  structured_log_enabled : Bool
  deriving DecidableEq

/-- `LoggerManager.__init__` (source lines 180-199): read the environment
(`GOOGLE_CLOUD_PROJECT` with the `<unknown-project>` default, and the
`GAE_DEPLOYMENT_ID` platform signal), then build the two loggers — both
requested under the name `default_logger`, the first on stdout and the second
on stderr. -/
def managerInit (envProject gaeDeploymentId : Option String) (reg : Registry) :
    ManagerState × Registry :=
  let project_id := envProject.getD "<unknown-project>"
  let structured := gaeDeploymentId.isSome
  let (dn, dh, reg1) := build_logger "default_logger" StreamT.stdout DEBUG reg
  let (en, eh, reg2) := build_logger "default_logger" StreamT.stderr DEBUG reg1
  (⟨dn, en, dh, eh, project_id, structured⟩, reg2)

/-- `LoggerManager._build_trace_and_span` (source lines 224-238).
The split call at line 232 carries no maxsplit argument (only a dangling
comma), so Python splits at
every `/`; the tuple unpacking `trace_id, span_id = ...` raises `ValueError`
unless the split yields exactly two pieces.  The final
f-string (projects/ then the project id, /traces/, then the trace id) is
built unconditionally, so a
`None` trace id is interpolated as the text `None`. -/
def build_trace_and_span (project_id : String) :
    Option String → Except PyError (Option String × Option String)
  | none => Except.ok (none, none)
  | some trace_header =>
    if pyHasChar '/' trace_header.data then
      match pySplitChar '/' trace_header.data with
      | [t, s0] =>
        let span_id := if pyHasChar ';' s0 then (pySplitChar ';' s0).headD [] else s0
        Except.ok
          (some ("projects/" ++ project_id ++ "/traces/" ++ pyStrOfOptStr (some (String.mk t))),
           some (String.mk span_id))
      | _ => Except.error PyError.valueError
    else
      Except.ok (some ("projects/" ++ project_id ++ "/traces/" ++ pyStrOfOptStr none), none)

/-- `LoggerManager.getLoggerContext` (source lines 240-245): parse the header
and wrap the pair in a `LoggerContext`; a `ValueError` from the parse
propagates to the caller. -/
def getLoggerContext (project_id : String) (trace_header : Option String) :
    Except PyError LoggerContext :=
  (build_trace_and_span project_id trace_header).map (fun ts => ⟨ts.1, ts.2⟩)

/-! ### Helper lemmas -/

theorem pyHasChar_iff (sep : Char) (l : List Char) : pyHasChar sep l = true ↔ sep ∈ l := by
  induction l with
  | nil => simp [pyHasChar]
  | cons c rest ih =>
    simp only [pyHasChar, Bool.or_eq_true, beq_iff_eq, ih, List.mem_cons]
    constructor
    · intro h
      cases h with
      | inl h => exact Or.inl h.symm
      | inr h => exact Or.inr h
    · intro h
      cases h with
      | inl h => exact Or.inl h.symm
      | inr h => exact Or.inr h

theorem pySplitChar_no_mem (sep : Char) (l : List Char) (h : sep ∉ l) :
    pySplitChar sep l = [l] := by
  induction l with
  | nil => rfl
  | cons c rest ih =>
    have hc : ¬ c = sep := fun hh => h (hh ▸ List.mem_cons_self c rest)
    have hr : sep ∉ rest := fun hh => h (List.mem_cons_of_mem c hh)
    simp [pySplitChar, hc, ih hr]

theorem pySplitChar_sep_append (sep : Char) (a b : List Char) (h : sep ∉ a) :
    pySplitChar sep (a ++ sep :: b) = a :: pySplitChar sep b := by
  induction a with
  | nil => simp [pySplitChar]
  | cons x xs ih =>
    have hx : ¬ x = sep := fun hh => h (hh ▸ List.mem_cons_self x xs)
    have hxs : sep ∉ xs := fun hh => h (List.mem_cons_of_mem x hh)
    rw [List.cons_append]
    rw [show pySplitChar sep (x :: (xs ++ sep :: b))
        = (match pySplitChar sep (xs ++ sep :: b) with
           | [] => [[x]]
           | g :: gs => (x :: g) :: gs) from by simp [pySplitChar, hx]]
    rw [ih hxs]

theorem find_caller_loop_true (stack : List FrameInfo) :
    find_caller_loop true stack = (stack.dropWhile (fun f => frameInLogger f)).head? := by
  induction stack with
  | nil => rfl
  | cons f rest ih =>
    cases hf : frameInLogger f <;> simp [find_caller_loop, hf, List.dropWhile_cons, ih]

theorem string_mk_data (s : String) : String.mk s.data = s := rfl

theorem payload_lookup_message (u : String) (e : Option String) (c : LoggerContext)
    (st : List FrameInfo) (lv : Nat) (m : PyMsg) :
    List.lookup "Message" (build_log_payload u e c st lv m)
      = some (PayloadVal.str (build_message_text e m)) := rfl

theorem payload_lookup_severity (u : String) (e : Option String) (c : LoggerContext)
    (st : List FrameInfo) (lv : Nat) (m : PyMsg) :
    List.lookup "severity" (build_log_payload u e c st lv m)
      = some (PayloadVal.str (getLevelName lv)) := rfl

theorem payload_lookup_src (u : String) (e : Option String) (c : LoggerContext)
    (st : List FrameInfo) (lv : Nat) (m : PyMsg) :
    List.lookup srcKey (build_log_payload u e c st lv m)
      = (find_caller st).map (fun fr => PayloadVal.srcLoc fr.filename fr.lineno fr.function) := by
  rcases c with ⟨tr, sp⟩
  cases tr <;> cases sp <;> cases hf : find_caller st <;>
    (simp only [build_log_payload, hf]; rfl)

theorem pyRemoveGo_drop (pat : List Char) (s : List Char) :
    ∀ k, pyRemoveGo pat s k = pyRemoveGo pat (s.drop k) 0 := by
  induction s with
  | nil => intro k; cases k <;> rfl
  | cons c rest ih =>
    intro k
    cases k with
    | zero => rfl
    | succ k => simpa [pyRemoveGo] using ih k

theorem pyRemoveGo_no_occur (pat : List Char) (s : List Char) (h : occursB pat s = false) :
    pyRemoveGo pat s 0 = s := by
  induction s with
  | nil => rfl
  | cons c rest ih =>
    simp only [occursB, Bool.or_eq_false_iff] at h
    simp [pyRemoveGo, h.1, ih h.2]

theorem isPrefixOf_self_append (a b : List Char) : a.isPrefixOf (a ++ b) = true := by
  induction a with
  | nil => cases b <;> rfl
  | cons x xs ih => simp [List.isPrefixOf, ih]

theorem pyRemoveGo_strip (pat rest : List Char) (hp : pat ≠ [])
    (h : occursB pat rest = false) :
    pyRemoveGo pat (pat ++ rest) 0 = rest := by
  cases pat with
  | nil => exact absurd rfl hp
  | cons p ps =>
    rw [List.cons_append]
    rw [show pyRemoveGo (p :: ps) (p :: (ps ++ rest)) 0
        = pyRemoveGo (p :: ps) (ps ++ rest) ((p :: ps).length - 1) from by
      simp [pyRemoveGo, isPrefixOf_self_append]]
    rw [pyRemoveGo_drop]
    simp only [List.length_cons, Nat.add_sub_cancel, List.drop_left]
    exact pyRemoveGo_no_occur _ _ h

theorem mem_of_isPrefixOf {a : Char} {l₁ l₂ : List Char}
    (h : l₁.isPrefixOf l₂ = true) (ha : a ∈ l₁) : a ∈ l₂ := by
  induction l₁ generalizing l₂ with
  | nil => cases ha
  | cons x xs ih =>
    cases l₂ with
    | nil => simp [List.isPrefixOf] at h
    | cons y ys =>
      simp only [List.isPrefixOf, Bool.and_eq_true, beq_iff_eq] at h
      cases ha with
      | head => exact h.1 ▸ List.mem_cons_self y ys
      | tail _ hm => exact List.mem_cons_of_mem y (ih h.2 hm)

theorem occursB_false_of_char (pat s : List Char) (c : Char)
    (hc : c ∈ pat) (hs : c ∉ s) : occursB pat s = false := by
  induction s with
  | nil =>
    have hne : pat ≠ [] := by rintro rfl; cases hc
    cases pat with
    | nil => exact absurd rfl hne
    | cons p ps => rfl
  | cons x xs ih =>
    have hx : c ∉ xs := fun hh => hs (List.mem_cons_of_mem x hh)
    have hpre : pat.isPrefixOf (x :: xs) = false := by
      cases hh : pat.isPrefixOf (x :: xs) with
      | false => rfl
      | true => exact absurd (mem_of_isPrefixOf hh hc) hs
    simp [occursB, hpre, ih hx]

/-! ### Claims -/

/-- Claim C1 (code bug): the claim says that a non-null header with no slash
yields a context with a null trace and a null span id.  Evaluating the embedded
`getLoggerContext` at the documented failing input shows the code instead
f-string-interpolates the `None` trace id, producing the trace
`projects/myproj/traces/None` (the span id is null as claimed). -/
theorem c1_no_slash_trace_not_null :
    getLoggerContext "myproj" (some "abc123")
      = Except.ok ⟨some "projects/myproj/traces/None", none⟩ := rfl

/-- Claim C2 (code bug): the claim says every header is parsed without raising,
splitting once on the first slash.  Because the source calls split without a
maxsplit argument and tuple-unpacks the result into exactly two names, a header
containing two or more slashes raises `ValueError`, shown here by evaluating
the embedded code at such a header. -/
theorem c2_two_slashes_raise :
    getLoggerContext "myproj" (some "a/b/c") = Except.error PyError.valueError := rfl

/-- Claim C3 (code bug): the claim says construction binds one normal sink to
stdout and one error sink to stderr.  Evaluating the embedded constructor on a
fresh registry shows both loggers are requested under the single name
`default_logger`, so the error logger is the very same registry entry as the
normal one; the only handler ever attached streams to stdout with the
message-only format (propagation disabled), the stderr handler object is
created but never attached to any logger, and a second construction leaves the
registry unchanged. -/
theorem c3_manager_init_sinks :
    (managerInit (some "myproj") none []).1.errorLoggerName
        = (managerInit (some "myproj") none []).1.defaultLoggerName
    ∧ (managerInit (some "myproj") none []).2.lookup "default_logger"
        = some ⟨false, 10, [⟨StreamT.stdout, 10, "%(message)s"⟩]⟩
    ∧ (∀ e ∈ (managerInit (some "myproj") none []).2, ∀ h ∈ e.2.handlers,
        h.stream = StreamT.stdout)
    ∧ (managerInit (some "myproj") none []).1.errorHandler.stream = StreamT.stderr
    ∧ (managerInit (some "myproj") none ((managerInit (some "myproj") none []).2)).2
        = (managerInit (some "myproj") none []).2 := by decide

/-- Claim C4: for every severity in the set DEBUG, INFO, WARNING, ERROR,
CRITICAL, FATAL, a log call writes the formatted line to the error sink iff
the numeric level is at least the ERROR threshold, and otherwise to the normal
sink. -/
theorem c4_severity_routing (u : String) (e : Option String) (now cwd : String)
    (st : List FrameInfo) (b : Bool) (hk : Option (Option LoggerContext))
    (c : LoggerContext) (level : Nat) (m : PyMsg)
    (_hlev : level ∈ [DEBUG, INFO, WARNING, ERROR, CRITICAL, FATAL]) :
    ((gumo_log u e now cwd st b hk c level m).1 = SinkSel.errorLogger ↔ ERROR ≤ level)
    ∧ ((gumo_log u e now cwd st b hk c level m).1 = SinkSel.defaultLogger ↔ level < ERROR) := by
  by_cases h : ERROR ≤ level
  · simp [gumo_log, h, Nat.not_lt.mpr h]
  · simp [gumo_log, h, Nat.lt_of_not_le h]

/-- Witness for C4 at the concrete level FATAL = 50. -/
theorem c4_severity_routing_witness :
    (50 ∈ [DEBUG, INFO, WARNING, ERROR, CRITICAL, FATAL])
    ∧ (((gumo_log "T" none "N" "/app" [] false none ⟨none, none⟩ 50 (PyMsg.str "x")).1
          = SinkSel.errorLogger ↔ ERROR ≤ 50)
       ∧ ((gumo_log "T" none "N" "/app" [] false none ⟨none, none⟩ 50 (PyMsg.str "x")).1
          = SinkSel.defaultLogger ↔ 50 < ERROR)) :=
  ⟨by decide,
   c4_severity_routing "T" none "N" "/app" [] false none ⟨none, none⟩ 50 (PyMsg.str "x")
     (by decide)⟩

/-- Claim C5: with project id myproj, the header abc123/456;o=1 parses to the
trace projects/myproj/traces/abc123 with span id 456, and a null header parses
to the all-null context. -/
theorem c5_trace_header_examples :
    getLoggerContext "myproj" (some "abc123/456;o=1")
      = Except.ok ⟨some "projects/myproj/traces/abc123", some "456"⟩
    ∧ getLoggerContext "myproj" none = Except.ok ⟨none, none⟩ :=
  ⟨rfl, rfl⟩

/-- Claim C6: the built record contains the trace key iff the bound context
carries a non-null trace, the spanId key iff it carries a non-null span id,
the sourceLocation key only when caller resolution succeeds, and the
timestamp, Message and severity keys always. -/
theorem c6_payload_keys (u : String) (e : Option String) (c : LoggerContext)
    (st : List FrameInfo) (lv : Nat) (m : PyMsg) :
    (traceKey ∈ (build_log_payload u e c st lv m).map Prod.fst ↔ c.trace ≠ none)
    ∧ (spanKey ∈ (build_log_payload u e c st lv m).map Prod.fst ↔ c.span_id ≠ none)
    ∧ (srcKey ∈ (build_log_payload u e c st lv m).map Prod.fst → find_caller st ≠ none)
    ∧ "timestamp" ∈ (build_log_payload u e c st lv m).map Prod.fst
    ∧ "Message" ∈ (build_log_payload u e c st lv m).map Prod.fst
    ∧ "severity" ∈ (build_log_payload u e c st lv m).map Prod.fst := by
  rcases c with ⟨tr, sp⟩
  cases tr <;> cases sp <;> cases hf : find_caller st <;>
    simp [build_log_payload, hf, traceKey, spanKey, srcKey]

/-- Claim C7: caller resolution walks the stack innermost-outward, classifies
a frame as internal when its local self binding is a facade instance, and
returns exactly the first non-internal frame after the run of internal frames
(none when no such frame exists, in which case the field is omitted): the
translated loop equals the specified dropWhile composition on every stack. -/
theorem c7_caller_resolution (stack : List FrameInfo) :
    find_caller stack = spec_find_caller stack := by
  unfold find_caller
  induction stack with
  | nil => rfl
  | cons f rest ih =>
    cases hf : frameInLogger f with
    | true =>
      simp [find_caller_loop, hf, spec_find_caller, List.dropWhile_cons,
        find_caller_loop_true]
    | false =>
      simpa [find_caller_loop, hf, spec_find_caller, List.dropWhile_cons] using ih

/-- Counterexample for C8: with working directory /app and caller file
/app/x/app/y.py, the text formatter removes every occurrence of the
cwd-plus-slash substring, rendering the file part as xy.py, which differs from
the prefix-stripped path x/app/y.py the claim prescribes. -/
theorem c8_text_format_counterexample :
    log_text_formatter "/app" "T"
        (build_log_payload "T" none ⟨none, none⟩
          [⟨some ⟨true⟩, "/app/gumo/logging/init.py", 150, "find"⟩,
           ⟨none, "/app/x/app/y.py", 12, "main"⟩] 20 (PyMsg.str "hi"))
      = "[T]INFO:xy.py:12: hi"
    ∧ log_text_formatter "/app" "T"
        (build_log_payload "T" none ⟨none, none⟩
          [⟨some ⟨true⟩, "/app/gumo/logging/init.py", 150, "find"⟩,
           ⟨none, "/app/x/app/y.py", 12, "main"⟩] 20 (PyMsg.str "hi"))
      ≠ "[" ++ "T" ++ "]" ++ "INFO" ++ ":" ++ spec_strip_cwd "/app" "/app/x/app/y.py"
          ++ ":" ++ "12" ++ ": " ++ "hi" := by
  constructor <;> decide

/-- Claim C8 as amended: every record renders as the bracketed local
timestamp, severity, file, line and message, where the file part is the
caller file with every occurrence of the cwd-plus-separator substring removed;
when that substring occurs in the path only as a leading prefix this equals
prefix-stripping, and the line and file fall back to a dash and the
unknown-marker when the source location is unavailable. -/
theorem c8_text_format_amended (cwd now utc : String) (exc : Option String)
    (ctx : LoggerContext) (stack : List FrameInfo) (level : Nat) (msg : PyMsg) :
    (∀ fr : FrameInfo, find_caller stack = some fr →
      log_text_formatter cwd now (build_log_payload utc exc ctx stack level msg)
        = "[" ++ now ++ "]" ++ getLevelName level ++ ":" ++ pyRemoveAll (cwd ++ "/") fr.filename
            ++ ":" ++ toString fr.lineno ++ ": " ++ build_message_text exc msg)
    ∧ (∀ (fr : FrameInfo) (rest : List Char), find_caller stack = some fr →
        fr.filename.data = (cwd ++ "/").data ++ rest →
        occursB (cwd ++ "/").data rest = false →
      log_text_formatter cwd now (build_log_payload utc exc ctx stack level msg)
        = "[" ++ now ++ "]" ++ getLevelName level ++ ":" ++ String.mk rest
            ++ ":" ++ toString fr.lineno ++ ": " ++ build_message_text exc msg)
    ∧ (find_caller stack = none →
      log_text_formatter cwd now (build_log_payload utc exc ctx stack level msg)
        = "[" ++ now ++ "]" ++ getLevelName level ++ ":" ++ "<unknown>"
            ++ ":" ++ "-" ++ ": " ++ build_message_text exc msg) := by
  have hgen : ∀ fr : FrameInfo, find_caller stack = some fr →
      log_text_formatter cwd now (build_log_payload utc exc ctx stack level msg)
        = "[" ++ now ++ "]" ++ getLevelName level ++ ":" ++ pyRemoveAll (cwd ++ "/") fr.filename
            ++ ":" ++ toString fr.lineno ++ ": " ++ build_message_text exc msg := by
    intro fr hf
    unfold log_text_formatter
    rw [payload_lookup_src, payload_lookup_severity, payload_lookup_message, hf]
    simp [pyFormatField]
  refine ⟨hgen, ?_, ?_⟩
  · intro fr rest hf hdata hocc
    rw [hgen fr hf]
    have hpat : (cwd ++ "/").data ≠ [] := by
      have hd : (cwd ++ "/").data = cwd.data ++ ['/'] := rfl
      simp [hd]
    have hfile : pyRemoveAll (cwd ++ "/") fr.filename = String.mk rest := by
      unfold pyRemoveAll
      rw [hdata, pyRemoveGo_strip _ _ hpat hocc]
    rw [hfile]
  · intro hf
    unfold log_text_formatter
    rw [payload_lookup_src, payload_lookup_severity, payload_lookup_message, hf]
    have hun : pyRemoveAll (cwd ++ "/") "<unknown>" = "<unknown>" := by
      unfold pyRemoveAll
      rw [pyRemoveGo_no_occur]
      apply occursB_false_of_char _ _ '/'
      · show '/' ∈ cwd.data ++ ['/']
        simp
      · decide
    simp [pyFormatField, hun]

/-- Witness for C8 as amended: a concrete two-frame stack whose caller file
/app/m.py starts with the cwd /app plus slash and contains no further
occurrence, rendering as m.py. -/
theorem c8_text_format_amended_witness :
    (find_caller [⟨some ⟨true⟩, "/app/gumo/logging/init.py", 150, "find"⟩,
        ⟨none, "/app/m.py", 7, "main"⟩]
      = some ⟨none, "/app/m.py", 7, "main"⟩)
    ∧ ((⟨none, "/app/m.py", 7, "main"⟩ : FrameInfo).filename.data
        = ("/app" ++ "/").data ++ "m.py".data)
    ∧ (occursB ("/app" ++ "/").data "m.py".data = false)
    ∧ (log_text_formatter "/app" "N"
        (build_log_payload "T" none ⟨none, none⟩
          [⟨some ⟨true⟩, "/app/gumo/logging/init.py", 150, "find"⟩,
           ⟨none, "/app/m.py", 7, "main"⟩] 20 (PyMsg.str "hi"))
        = "[" ++ "N" ++ "]" ++ getLevelName 20 ++ ":" ++ String.mk "m.py".data
            ++ ":" ++ toString (7 : Nat) ++ ": " ++ build_message_text none (PyMsg.str "hi")) :=
  ⟨by decide, by decide, by decide,
   (c8_text_format_amended "/app" "N" "T" none ⟨none, none⟩
      [⟨some ⟨true⟩, "/app/gumo/logging/init.py", 150, "find"⟩,
       ⟨none, "/app/m.py", 7, "main"⟩] 20 (PyMsg.str "hi")).2.1
     ⟨none, "/app/m.py", 7, "main"⟩ "m.py".data (by decide) (by decide) (by decide)⟩

/-- Counterexample for C9: logging an error object with no exception active in
the calling context yields the repr, a newline, and the placeholder line that
the traceback module prints for an absent exception — not the empty string the
claim prescribes. -/
theorem c9_message_text_counterexample :
    List.lookup "Message"
      (build_log_payload "T" none ⟨none, none⟩ [] 40 (PyMsg.exc "ValueError(42)"))
      ≠ some (PayloadVal.str ("ValueError(42)" ++ "\n" ++ "")) := by decide

/-- Claim C9 as amended: for an error-object message the record text is the
canonical repr, a newline, and the traceback text of the currently-propagating
exception when one is active — otherwise the placeholder text NoneType: None
plus a newline; for a non-error message the text is its string
representation. -/
theorem c9_message_text_amended (u : String) (e : Option String) (c : LoggerContext)
    (st : List FrameInfo) (lv : Nat) :
    (∀ r : String,
      List.lookup "Message" (build_log_payload u e c st lv (PyMsg.exc r))
        = some (PayloadVal.str (r ++ "\n" ++
            (match e with | some tb => tb | none => "NoneType: None\n"))))
    ∧ (∀ s : String,
      List.lookup "Message" (build_log_payload u e c st lv (PyMsg.str s))
        = some (PayloadVal.str s)) := by
  constructor
  · intro r
    rw [payload_lookup_message]
    cases e <;> rfl
  · intro s
    rw [payload_lookup_message]
    rfl

/-- Claim C10: a header with exactly one slash whose span part is empty or
starts with a semicolon parses to the empty-string span id (not null), and any
record built from that context contains the spanId key with the empty-string
value, since only a null span id suppresses the key. -/
theorem c10_empty_span (pid a b : String)
    (ha : '/' ∉ a.data) (hb : '/' ∉ b.data)
    (hb0 : b.data = [] ∨ b.data.head? = some ';') :
    getLoggerContext pid (some (a ++ "/" ++ b))
      = Except.ok ⟨some ("projects/" ++ pid ++ "/traces/" ++ a), some ""⟩
    ∧ ∀ (u : String) (e : Option String) (st : List FrameInfo) (lv : Nat) (m : PyMsg),
        (spanKey, PayloadVal.str "") ∈ build_log_payload u e
          ⟨some ("projects/" ++ pid ++ "/traces/" ++ a), some ""⟩ st lv m := by
  have hdata : (a ++ "/" ++ b).data = a.data ++ '/' :: b.data := by
    show (a.data ++ ['/']) ++ b.data = a.data ++ '/' :: b.data
    simp
  have hsplit : pySplitChar '/' ((a ++ "/" ++ b).data) = [a.data, b.data] := by
    rw [hdata, pySplitChar_sep_append '/' a.data b.data ha, pySplitChar_no_mem '/' b.data hb]
  have hcont : pyHasChar '/' ((a ++ "/" ++ b).data) = true := by
    rw [pyHasChar_iff, hdata]
    simp
  have hspan : (if pyHasChar ';' b.data then (pySplitChar ';' b.data).headD [] else b.data)
      = [] := by
    rcases hb0 with h0 | h0
    · rw [h0]
      rfl
    · rcases hbd : b.data with _ | ⟨x, t⟩
      · rfl
      · rw [hbd] at h0
        simp at h0
        subst h0
        rfl
  constructor
  · simp only [getLoggerContext, build_trace_and_span, hcont, if_true, hsplit, hspan,
      Except.map, pyStrOfOptStr, string_mk_data]
  · intro u e st lv m
    show (spanKey, PayloadVal.str "") ∈
      ([("timestamp", PayloadVal.str (u ++ "Z")),
        ("Message", PayloadVal.str (build_message_text e m)),
        ("severity", PayloadVal.str (getLevelName lv))]
       ++ [(traceKey, PayloadVal.str ("projects/" ++ pid ++ "/traces/" ++ a))]
       ++ [(spanKey, PayloadVal.str "")]
       ++ (match find_caller st with
           | some fr => [(srcKey, PayloadVal.srcLoc fr.filename fr.lineno fr.function)]
           | none => []))
    apply List.mem_append_of_mem_left
    apply List.mem_append_of_mem_right
    exact List.mem_singleton.mpr rfl

/-- Witness for C10 at the concrete header abc123/ (empty span part). -/
theorem c10_empty_span_witness :
    ('/' ∉ "abc123".data) ∧ ('/' ∉ "".data)
    ∧ ("".data = [] ∨ "".data.head? = some ';')
    ∧ (getLoggerContext "myproj" (some ("abc123" ++ "/" ++ ""))
        = Except.ok ⟨some ("projects/" ++ "myproj" ++ "/traces/" ++ "abc123"), some ""⟩
       ∧ ∀ (u : String) (e : Option String) (st : List FrameInfo) (lv : Nat) (m : PyMsg),
          (spanKey, PayloadVal.str "") ∈ build_log_payload u e
            ⟨some ("projects/" ++ "myproj" ++ "/traces/" ++ "abc123"), some ""⟩ st lv m) :=
  ⟨by decide, by decide, Or.inl rfl,
   c10_empty_span "myproj" "abc123" "" (by decide) (by decide) (Or.inl rfl)⟩

end Gumo
